import Mathlib

/-!
Shallow embedding of the Apify poll-loop runner (`apify_runner.py`, with the
unique-index declarations of `db.py`) and proofs about its behaviour.

Python JSON-ish values are modelled by `PyVal`; dictionaries are ordered
association lists, matching Python's insertion-ordered dicts.  File contents,
the document collection, the run log and the snapshot directory are explicit
state (`Sys`).  External collaborators (the Apify HTTP endpoint, the MongoDB
server's accept/reject decision for each insert, the wall clock) are oracles
passed into each cycle.
-/

namespace Apify

/-- Values handled by the script: JSON values as produced by `res.json()` /
`json.load`, plus BSON `ObjectId` (which can appear in data headed for
`json.dumps` and is handled there by `MongoJSONEncoder`). -/
inductive PyVal where
  | null : PyVal
  | bool : Bool → PyVal
  | int : Int → PyVal
  | str : String → PyVal
  | arr : List PyVal → PyVal
  | obj : List (String × PyVal) → PyVal
  | oid : String → PyVal

mutual

def pyBeq : PyVal → PyVal → Bool
  | .null, .null => true
  | .bool a, .bool b => a == b
  | .int a, .int b => a == b
  | .str a, .str b => a == b
  | .arr a, .arr b => pyBeqArr a b
  | .obj a, .obj b => pyBeqObj a b
  | .oid a, .oid b => a == b
  | _, _ => false

def pyBeqArr : List PyVal → List PyVal → Bool
  | [], [] => true
  | x :: xs, y :: ys => pyBeq x y && pyBeqArr xs ys
  | _, _ => false

def pyBeqObj : List (String × PyVal) → List (String × PyVal) → Bool
  | [], [] => true
  | (k, v) :: xs, (l, w) :: ys => k == l && pyBeq v w && pyBeqObj xs ys
  | _, _ => false

end

mutual

theorem pyBeq_iff : ∀ a b : PyVal, pyBeq a b = true ↔ a = b
  | .null, b => by cases b <;> simp [pyBeq]
  | .bool _, b => by cases b <;> simp [pyBeq]
  | .int _, b => by cases b <;> simp [pyBeq]
  | .str _, b => by cases b <;> simp [pyBeq]
  | .oid _, b => by cases b <;> simp [pyBeq]
  | .arr a, .arr b => by simp [pyBeq, pyBeqArr_iff a b]
  | .arr _, .null | .arr _, .bool _ | .arr _, .int _ | .arr _, .str _
  | .arr _, .obj _ | .arr _, .oid _ => by simp [pyBeq]
  | .obj a, .obj b => by simp [pyBeq, pyBeqObj_iff a b]
  | .obj _, .null | .obj _, .bool _ | .obj _, .int _ | .obj _, .str _
  | .obj _, .arr _ | .obj _, .oid _ => by simp [pyBeq]

theorem pyBeqArr_iff : ∀ a b : List PyVal, pyBeqArr a b = true ↔ a = b
  | [], [] => by simp [pyBeqArr]
  | [], _ :: _ | _ :: _, [] => by simp [pyBeqArr]
  | x :: xs, y :: ys => by
      simp [pyBeqArr, pyBeq_iff x y, pyBeqArr_iff xs ys]

theorem pyBeqObj_iff :
    ∀ a b : List (String × PyVal), pyBeqObj a b = true ↔ a = b
  | [], [] => by simp [pyBeqObj]
  | [], _ :: _ | _ :: _, [] => by simp [pyBeqObj]
  | (k, v) :: xs, (l, w) :: ys => by
      simp [pyBeqObj, pyBeq_iff v w, pyBeqObj_iff xs ys, and_assoc]

end

instance : DecidableEq PyVal := fun a b => decidable_of_iff _ (pyBeq_iff a b)

/-- First-occurrence lookup in an association list (Python dict access;
Python dicts cannot hold duplicate keys, so first occurrence is the value). -/
def lookupKey (kvs : List (String × PyVal)) (k : String) : Option PyVal :=
  match kvs with
  | [] => none
  | (k', v) :: rest => if k' = k then some v else lookupKey rest k

/-- Python `d.get(k, default)`: the stored value when the key is present
(even if that value is `None`), the default otherwise. -/
def dGet (kvs : List (String × PyVal)) (k : String) (dflt : PyVal) : PyVal :=
  (lookupKey kvs k).getD dflt

/-- Python `d[k] = v`: overwrite in place when the key exists (keeping its
position), append otherwise. -/
def setKey (kvs : List (String × PyVal)) (k : String) (v : PyVal) :
    List (String × PyVal) :=
  match kvs with
  | [] => [(k, v)]
  | (k', v') :: rest =>
      if k' = k then (k', v) :: rest else (k', v') :: setKey rest k v

/-- Python truthiness for the values above (`if items:`, `if latest_ts:`). -/
def truthy : PyVal → Bool
  | .null => false
  | .bool b => b
  | .int n => n != 0
  | .str s => s != ""
  | .arr xs => !xs.isEmpty
  | .obj kvs => !kvs.isEmpty
  | .oid _ => true

/-- Python `len`: defined on sequences/mappings, a `TypeError` otherwise. -/
def pyLen : PyVal → Except String Nat
  | .str s => .ok s.length
  | .arr xs => .ok xs.length
  | .obj kvs => .ok kvs.length
  | _ => .error "TypeError: object has no len"

/-- A single-quote character, written via its code point. -/
def sq : String := String.singleton (Char.ofNat 39)

mutual

/-- Python `repr` for the embedded values (element form used inside
`str` of containers).  `ObjectId` prints as `ObjectId(...)`. -/
def pyRepr : PyVal → String
  | .null => "None"
  | .bool b => if b then "True" else "False"
  | .int n => toString n
  | .str s => sq ++ s ++ sq
  | .arr xs => "[" ++ pyReprArr xs ++ "]"
  | .obj kvs => "\x7b" ++ pyReprObj kvs ++ "\x7d"
  | .oid h => "ObjectId(" ++ sq ++ h ++ sq ++ ")"

def pyReprArr : List PyVal → String
  | [] => ""
  | [x] => pyRepr x
  | x :: x' :: rest => pyRepr x ++ ", " ++ pyReprArr (x' :: rest)

def pyReprObj : List (String × PyVal) → String
  | [] => ""
  | [(k, v)] => sq ++ k ++ sq ++ ": " ++ pyRepr v
  | (k, v) :: kv :: rest =>
      sq ++ k ++ sq ++ ": " ++ pyRepr v ++ ", " ++ pyReprObj (kv :: rest)

end

/-- Python `str(x)`: the string itself for strings, the hex string for
`ObjectId` (as `bson.ObjectId.__str__` does), `repr` otherwise. -/
def pyStr : PyVal → String
  | .str s => s
  | .oid h => h
  | v => pyRepr v

/-- Escaping applied by `json.dumps` to string content. -/
def jsonEscape (s : String) : String :=
  s.data.foldl (fun acc c =>
    if c = Char.ofNat 92 then acc ++ "\\\\"
    else if c = Char.ofNat 34 then acc ++ "\\\""
    else if c = Char.ofNat 10 then acc ++ "\\n"
    else if c = Char.ofNat 13 then acc ++ "\\r"
    else if c = Char.ofNat 9 then acc ++ "\\t"
    else acc.push c) ""

/-- A JSON string literal: quoted, escaped. -/
def jsonQuote (s : String) : String := "\"" ++ jsonEscape s ++ "\""

mutual

/-- `json.dumps` with the default encoder (default separators `", "` and
`": "`): fails (`TypeError`, modelled as `none`) on a value the default
encoder cannot serialize, i.e. any embedded `ObjectId`. -/
def dumps : PyVal → Option String
  | .null => some "null"
  | .bool b => some (if b then "true" else "false")
  | .int n => some (toString n)
  | .str s => some (jsonQuote s)
  | .arr xs => (dumpsArr xs).map (fun body => "[" ++ body ++ "]")
  | .obj kvs => (dumpsObj kvs).map (fun body => "\x7b" ++ body ++ "\x7d")
  | .oid _ => none

def dumpsArr : List PyVal → Option String
  | [] => some ""
  | [x] => dumps x
  | x :: x' :: rest =>
      match dumps x, dumpsArr (x' :: rest) with
      | some a, some b => some (a ++ ", " ++ b)
      | _, _ => none

def dumpsObj : List (String × PyVal) → Option String
  | [] => some ""
  | [(k, v)] => (dumps v).map (fun sv => jsonQuote k ++ ": " ++ sv)
  | (k, v) :: kv :: rest =>
      match dumps v, dumpsObj (kv :: rest) with
      | some a, some b => some (jsonQuote k ++ ": " ++ a ++ ", " ++ b)
      | _, _ => none

end

mutual

/-- `json.dumps(..., cls=MongoJSONEncoder)`: total on the embedded values —
the encoder's `default` turns an `ObjectId` into `str(obj)` and every other
value is natively serializable. -/
def dumpsMongo : PyVal → String
  | .null => "null"
  | .bool b => if b then "true" else "false"
  | .int n => toString n
  | .str s => jsonQuote s
  | .arr xs => "[" ++ dumpsMongoArr xs ++ "]"
  | .obj kvs => "\x7b" ++ dumpsMongoObj kvs ++ "\x7d"
  | .oid h => jsonQuote h

def dumpsMongoArr : List PyVal → String
  | [] => ""
  | [x] => dumpsMongo x
  | x :: x' :: rest => dumpsMongo x ++ ", " ++ dumpsMongoArr (x' :: rest)

def dumpsMongoObj : List (String × PyVal) → String
  | [] => ""
  | [(k, v)] => jsonQuote k ++ ": " ++ dumpsMongo v
  | (k, v) :: kv :: rest =>
      jsonQuote k ++ ": " ++ dumpsMongo v ++ ", " ++ dumpsMongoObj (kv :: rest)

end

mutual

/-- The object-to-string fallback of `MongoJSONEncoder.default`, expressed as
a pre-pass: every `ObjectId` in the value replaced by its string form. -/
def stripOid : PyVal → PyVal
  | .null => .null
  | .bool b => .bool b
  | .int n => .int n
  | .str s => .str s
  | .arr xs => .arr (stripOidArr xs)
  | .obj kvs => .obj (stripOidObj kvs)
  | .oid h => .str h

def stripOidArr : List PyVal → List PyVal
  | [] => []
  | x :: xs => stripOid x :: stripOidArr xs

def stripOidObj : List (String × PyVal) → List (String × PyVal)
  | [] => []
  | (k, v) :: kvs => (k, stripOid v) :: stripOidObj kvs

end

/-- A Python dict of string keys, in insertion order. -/
abbrev Dict := List (String × PyVal)

instance {ε α : Type} [DecidableEq ε] [DecidableEq α] :
    DecidableEq (Except ε α) := fun a b =>
  match a, b with
  | .ok x, .ok y => decidable_of_iff (x = y) (by simp)
  | .error x, .error y => decidable_of_iff (x = y) (by simp)
  | .ok _, .error _ => isFalse (by simp)
  | .error _, .ok _ => isFalse (by simp)

/-! ### Python string operations

`String.splitOn` / `String.replace` from the Lean library do not reduce
inside the kernel, so the Python string methods the script uses are
modelled directly on character lists. -/

/-- Whether `pat` is a prefix of `s`. -/
def isPrefixCharList : List Char → List Char → Bool
  | [], _ => true
  | _ :: _, [] => false
  | p :: ps, c :: cs => p == c && isPrefixCharList ps cs

/-- Worker for `pySplit`: scan `s`, splitting at each occurrence of `pat`;
`skip` counts separator characters still to be consumed, `cur` holds the
current piece reversed. -/
def splitGo (pat : List Char) : List Char → Nat → List Char → List (List Char)
  | [], _, cur => [cur.reverse]
  | _ :: rest, skip + 1, cur => splitGo pat rest skip cur
  | c :: rest, 0, cur =>
      if isPrefixCharList pat (c :: rest) then
        cur.reverse :: splitGo pat rest (pat.length - 1) []
      else splitGo pat rest 0 (c :: cur)

/-- Python `s.split(pat)` for a non-empty `pat`. -/
def pySplit (s pat : String) : List String :=
  (splitGo pat.data s.data 0 []).map String.mk

/-- Python `needle in haystack` for strings. -/
def pyContains (s pat : String) : Bool :=
  (pySplit s pat).length != 1

/-- Python `s.replace(pat, rep)` for a non-empty `pat`. -/
def pyReplace (s pat rep : String) : String :=
  String.intercalate rep (pySplit s pat)

/-! ### State Store (`load_state` / `save_state`) -/

/-- Contents of a file on disk: parseable JSON, or bytes that `json.load`
rejects. -/
inductive FileContent where
  | jsonFile : PyVal → FileContent
  | invalidFile : String → FileContent
deriving DecidableEq

/-- `load_state`: the parsed file when the state file exists (raising a
`JSONDecodeError` when its contents are not valid JSON), else the zero
checkpoint `{"lastTimestamp": ""}`. -/
def load_state : Option FileContent → Except String PyVal
  | some (.jsonFile v) => .ok v
  | some (.invalidFile raw) => .error ("JSONDecodeError: " ++ raw)
  | none => .ok (.obj [("lastTimestamp", .str "")])

/-- `save_state`: overwrite the state file with `{"lastTimestamp": timestamp}`. -/
def save_state (timestamp : PyVal) : Option FileContent :=
  some (.jsonFile (.obj [("lastTimestamp", timestamp)]))

/-! ### Source Client (`run_actor_and_get_items`) -/

/-- Outcome of the `requests.post` call, supplied by the environment:
either the call itself raises (transport error, timeout), or a response
arrives with an HTTP status, a body text, and a JSON parse outcome for
`res.json()`. -/
inductive FetchResult where
  | raises : String → FetchResult
  | response : Nat → String → Except String PyVal → FetchResult

/-- Message carried by the `HTTPError` that `res.raise_for_status()` raises
for a 4xx/5xx status. -/
def raise_for_status_msg (status : Nat) : String :=
  toString status ++ " Error"

/-- The line appended to `error_log.txt` for a non-200 response. -/
def api_error_line (now body : String) : String :=
  "[" ++ now ++ "] API Error: " ++ body

/-- Response normalization inside `run_actor_and_get_items`: a bare list is
taken as the items, a dict yields its `data` field (defaulting to `[]`),
anything else yields `[]`. -/
def extract_items : PyVal → PyVal
  | .arr xs => .arr xs
  | .obj kvs => dGet kvs "data" (.arr [])
  | _ => .arr []

/-- `run_actor_and_get_items`: returns the lines appended to
`error_log.txt` together with either the normalized items or the message of
the exception the call raised.  A non-200 status appends to the error log;
`raise_for_status` then raises for 4xx/5xx; otherwise `res.json()` is
parsed (raising on malformed bodies) and normalized. -/
def run_actor_and_get_items (errTime : String) (f : FetchResult) :
    List String × Except String PyVal :=
  match f with
  | .raises msg => ([], .error msg)
  | .response status body parsed =>
      let elog := if status ≠ 200 then [api_error_line errTime body] else []
      if 400 ≤ status then (elog, .error (raise_for_status_msg status))
      else
        match parsed with
        | .error m => (elog, .error m)
        | .ok j => (elog, .ok (extract_items j))

/-! ### Source Metadata (`extract_source_metadata`) -/

/-- The default metadata dict used when the config has no
`source_metadata` key. -/
def default_metadata : Dict :=
  [("source_type", .str "facebook"), ("post_type", .str "post"),
   ("source_name", .str "Facebook Page"), ("category", .str "Social Media")]

/-- Python `s.strip('/')`. -/
def stripSlashes (s : String) : String :=
  String.mk (((s.data.dropWhile (· = Char.ofNat 47)).reverse.dropWhile
    (· = Char.ofNat 47)).reverse)

/-- Python `s.title()`: the first letter of each run of letters is
uppercased, the remaining letters lowercased. -/
def pyTitle (s : String) : String :=
  (s.data.foldl (fun (acc : String × Bool) c =>
    if c.isAlpha then
      (acc.1.push (if acc.2 then c.toLower else c.toUpper), true)
    else (acc.1.push c, false)) ("", false)).1

/-- The page name derived from a facebook start URL:
`url.split('facebook.com/')[-1].strip('/').replace(".", " ").title()`. -/
def page_name_from_url (url : String) : String :=
  pyTitle (pyReplace (stripSlashes ((pySplit url "facebook.com/").getLastD ""))
    "." " ")

/-- `extract_source_metadata`: the config's `source_metadata` dict when
present (else the fixed defaults), plus the start URLs from the input
template (a dict entry contributes its `url` field).  When `start_urls` is
non-empty and the metadata's `source_name` is absent or falsy, and the
first URL contains `facebook.com`, the source name is derived from that
URL.  Raises (`Except.error`) where the Python raises: a missing
`inputTemplate`, a non-dict where a dict is accessed, a missing `url` key,
or a non-string first URL tested with `in`. -/
def extract_source_metadata (config : PyVal) : Except String (Dict × List PyVal) :=
  match config with
  | .obj ckvs =>
      match
        ((match lookupKey ckvs "source_metadata" with
          | some (.obj m) => Except.ok m
          | some _ => Except.error "AttributeError: source_metadata has no get"
          | none => Except.ok default_metadata) : Except String Dict) with
      | .error m => .error m
      | .ok dm0 =>
          match lookupKey ckvs "inputTemplate" with
          | none => .error "KeyError: inputTemplate"
          | some (.obj it) =>
              match
                ((match dGet it "startUrls" (.arr []) with
                  | .arr us =>
                      us.mapM (fun u =>
                        match u with
                        | .obj o =>
                            match lookupKey o "url" with
                            | some v => Except.ok v
                            | none => Except.error "KeyError: url"
                        | v => Except.ok v)
                  | _ => Except.error "TypeError: startUrls is not iterable") :
                  Except String (List PyVal)) with
              | .error m => .error m
              | .ok start_urls =>
                  if start_urls ≠ [] ∧ ¬ truthy (dGet dm0 "source_name" .null) then
                    match start_urls.head? with
                    | some (.str url) =>
                        if pyContains url "facebook.com" then
                          .ok (setKey dm0 "source_name"
                            (.str (page_name_from_url url)), start_urls)
                        else .ok (dm0, start_urls)
                    | _ => .error "TypeError: argument is not a string"
                  else .ok (dm0, start_urls)
          | some _ => .error "AttributeError: inputTemplate has no get"
  | _ => .error "AttributeError: config has no get"

/-! ### Persistence Layer (`save_items_to_db`) -/

/-- The in-place pre-pass of `save_items_to_db` on one entry's value: a
value that is a dict containing `_id` has that `_id` replaced by
`str(value["_id"])`; any other value is untouched. -/
def stringify_nested_val : PyVal → PyVal
  | .obj inner =>
      if (lookupKey inner "_id").isSome then
        .obj (setKey inner "_id" (.str (pyStr (dGet inner "_id" .null))))
      else .obj inner
  | v => v

/-- The pre-pass applied to each `(key, value)` entry of an item
(`for key, value in item.items(): ...`). -/
def stringify_nested_id (kv : String × PyVal) : String × PyVal :=
  (kv.1, stringify_nested_val kv.2)

/-- The in-place mutation `save_items_to_db` applies to a (dict) item
before attempting its insert: stringify nested `_id`s, then stamp the four
source-metadata fields. -/
def stampItem (metadata : Dict) (item : Dict) : Dict :=
  let item1 := item.map stringify_nested_id
  let item2 := setKey item1 "source_type" (dGet metadata "source_type" (.str "facebook"))
  let item3 := setKey item2 "post_type" (dGet metadata "post_type" (.str "post"))
  let item4 := setKey item3 "source_name"
    (dGet metadata "source_name" (dGet item3 "pageNameSource" (.str "Facebook Page")))
  setKey item4 "category" (dGet metadata "category" (.str "Social Media"))

/-- Result of `save_items_to_db`'s loop: the returned `success_count`, the
documents that reached the collection, and the items list as the in-place
mutation leaves it. -/
structure SaveResult where
  count : Nat
  inserted : List PyVal
  mutItems : List PyVal
deriving DecidableEq

/-- The full in-place effect of one insert attempt on a dict item: the
stamp (`stampItem`), then pymongo's `insert_one`, whose client side assigns
`document["_id"] = ObjectId()` to the passed dict when it has no `_id` —
before the server accepts or rejects, so the assignment happens on every
attempted document, failed inserts included.  `h` is the hex of the
generated `ObjectId`. -/
def stampInsertAny (md : Dict) (h : String) : PyVal → PyVal
  | .obj kvs =>
      if (lookupKey (stampItem md kvs) "_id").isSome then
        .obj (stampItem md kvs)
      else .obj (setKey (stampItem md kvs) "_id" (.oid h))
  | other => other

/-- The `for item in items` loop of `save_items_to_db`, item `i` first.
The MongoDB driver is abstracted by two oracles: `genId i` is the hex of
the `ObjectId` the driver generates for attempt `i`, and `insertOk i` is
whether the server accepts that insert — a rejection raises (e.g. a
`DuplicateKeyError` from the unique `url` index of `db.py`), which the
per-item `except` catches and logs as a warning.  A non-dict item raises
`AttributeError` at `item.items()` inside the same per-item `try`, so it is
skipped unchanged and uninserted. -/
def saveLoop (md : Dict) (insertOk : Nat → Bool) (genId : Nat → String) :
    List PyVal → Nat → SaveResult
  | [], _ => ⟨0, [], []⟩
  | item :: rest, i =>
      let r := saveLoop md insertOk genId rest (i + 1)
      match item with
      | .obj kvs =>
          let doc := stampInsertAny md (genId i) (.obj kvs)
          if insertOk i then ⟨r.count + 1, doc :: r.inserted, doc :: r.mutItems⟩
          else ⟨r.count, r.inserted, doc :: r.mutItems⟩
      | other => ⟨r.count, r.inserted, other :: r.mutItems⟩

/-- `save_items_to_db`: stamps and inserts each item independently,
returning the count of successful inserts, the new collection contents, and
the items list as the in-place mutations (stamping and driver `_id`
assignment) leave it. -/
def save_items_to_db (items : List PyVal) (metadata : Dict)
    (db : List PyVal) (insertOk : Nat → Bool) (genId : Nat → String) :
    SaveResult :=
  let r := saveLoop metadata insertOk genId items 0
  { r with inserted := db ++ r.inserted }

/-! ### Run Logger (`log_run`) -/

/-- `log_run`: serialize one record with `MongoJSONEncoder` and append it
as one line to the run log. -/
def log_run (log : List String) (data : PyVal) : List String :=
  log ++ [dumpsMongo data]

/-! ### Orchestrator (the `while True:` poll loop) -/

/-- The strings the wall clock yields at each `datetime.now` /
`datetime.now(timezone.utc)` call site of one cycle, in call order. -/
structure Clock where
  errLogTime : String
  runId : String
  snapToken : String
  snapRunAt : String
  logRunAt : String
  errRunAt : String

/-- The external collaborators of one cycle: the Apify call's outcome, the
MongoDB accept/reject decision per insert attempt, the `ObjectId` hex the
driver generates per insert attempt, and whether writing the state file
succeeds. -/
structure Oracles where
  fetch : FetchResult
  insertOk : Nat → Bool
  genId : Nat → String
  saveStateOk : Bool

/-- Observable persistent state: the checkpoint file, the document
collection, the run log (one serialized line per record), the snapshot
writes performed under `data/` (filename and dumped value, in write order),
and `error_log.txt`. -/
structure Sys where
  stateFile : Option FileContent
  db : List PyVal
  runLog : List String
  snapshots : List (String × PyVal)
  errorLog : List String
deriving DecidableEq

/-- The Run Record logged by a cycle whose `try` block completed. -/
def success_record (clk : Clock) (itemCount : Nat) (latest : PyVal) : PyVal :=
  .obj [("runAt", .str (clk.logRunAt ++ "Z")), ("runId", .str clk.runId),
        ("status", .str "SUCCEEDED"), ("itemCount", .int itemCount),
        ("latestTimestamp", latest), ("error", .null)]

/-- The Run Record logged by the `except` handler: status `ERROR`,
`itemCount` 0, no run id or timestamp, the exception's text as `error`. -/
def error_record (clk : Clock) (msg : String) : PyVal :=
  .obj [("runAt", .str (clk.errRunAt ++ "Z")), ("runId", .null),
        ("status", .str "ERROR"), ("itemCount", .int 0),
        ("latestTimestamp", .null), ("error", .str msg)]

/-- Snapshot filename: `data/apify_response_{time-of-day token}.json`. -/
def snapshot_name (clk : Clock) : String :=
  "data/apify_response_" ++ clk.snapToken ++ ".json"

/-- Snapshot contents: run timestamp plus the current `items` value. -/
def snapshot_content (clk : Clock) (items : PyVal) : PyVal :=
  .obj [("runAt", .str (clk.snapRunAt ++ "Z")), ("data", items)]

/-- Tail of the `try` block, common to the items and no-items paths: write
the snapshot file, then build the SUCCEEDED Run Record (whose construction
evaluates `len(items)`, raising a `TypeError` on a truthless non-sized
`items` — after the snapshot write) and append it to the run log. -/
def finish_cycle (clk : Clock) (s : Sys) (items latest : PyVal) :
    Except (Sys × String) Sys :=
  let s := { s with
    snapshots := s.snapshots ++ [(snapshot_name clk, snapshot_content clk items)] }
  match pyLen items with
  | .error m => .error (s, m)
  | .ok n => .ok { s with runLog := log_run s.runLog (success_record clk n latest) }

/-- The part of the `try` block from `if items:` on, given the normalized
`items` the fetch returned: persist and checkpoint when `items` is truthy,
then the common tail.  `latest_ts = items[0].get("timestamp")` reads the
item as the in-place mutation left it; a non-dict first item raises
`AttributeError` there. -/
def cycle_items (md : Dict) (insertOk : Nat → Bool) (genId : Nat → String)
    (saveStateOk : Bool)
    (clk : Clock) (s : Sys) (items : PyVal) : Except (Sys × String) Sys :=
  if truthy items then
    match items with
    | .arr l =>
        let r := save_items_to_db l md s.db insertOk genId
        let s := { s with db := r.inserted }
        match r.mutItems.head? with
        | some (.obj kvs) =>
            let latest := dGet kvs "timestamp" .null
            if truthy latest then
              if saveStateOk then
                finish_cycle clk { s with stateFile := save_state latest }
                  (.arr r.mutItems) latest
              else .error (s, "CheckpointWriteError")
            else finish_cycle clk s (.arr r.mutItems) latest
        | some _ => .error (s, "AttributeError: item has no get")
        | none => .error (s, "IndexError: list index out of range")
    | _ => .error (s, "TypeError: iteration over a non-list")
  else finish_cycle clk s items .null

/-- The `try` block of one cycle.  On an uncaught exception the result is
`.error` carrying the state as already mutated plus the exception text.
The actor input built from `inputTemplate` (with the `__LAST_TIMESTAMP__`
placeholder substituted) is consumed only by the external fetch, which the
`Oracles.fetch` outcome models, so it does not appear here.  Iterating a
truthy non-list `items` raises inside the `try` before any further state
change (a genuine non-iterable raises `TypeError` at the `for`; a string or
dict survives the per-item `try` of `save_items_to_db` without inserts and
then raises at `items[0].get`), collapsed here to the raising path. -/
def cycle_try (md : Dict) (o : Oracles) (clk : Clock) (s0 : Sys) :
    Except (Sys × String) Sys :=
  let fr := run_actor_and_get_items clk.errLogTime o.fetch
  let s := { s0 with errorLog := s0.errorLog ++ fr.1 }
  match fr.2 with
  | .error msg => .error (s, msg)
  | .ok items => cycle_items md o.insertOk o.genId o.saveStateOk clk s items

/-- One iteration of the `while True:` loop.  `load_state` and
`state.get("lastTimestamp", "")` run before the `try`, so their exceptions
escape the loop (`Except.error`: the process dies).  An exception inside
the `try` is caught and turned into an appended ERROR Run Record, and the
iteration still completes (`Except.ok`): the loop sleeps and runs again. -/
def run_cycle (md : Dict) (o : Oracles) (clk : Clock) (s : Sys) :
    Except String Sys :=
  match load_state s.stateFile with
  | .error m => .error m
  | .ok st =>
      match st with
      | .obj _kvs =>
          match cycle_try md o clk s with
          | .ok s' => .ok s'
          | .error (s', msg) =>
              .ok { s' with runLog := log_run s'.runLog (error_record clk msg) }
      | _ => .error "AttributeError: state has no get"

/-- `n` successive iterations of the loop, cycle `i` drawing its oracles
and clock from `env i`. -/
def run_loop (md : Dict) (env : Nat → Oracles × Clock) :
    Nat → Nat → Sys → Except String Sys
  | _, 0, s => .ok s
  | i, n + 1, s =>
      match run_cycle md (env i).1 (env i).2 s with
      | .ok s' => run_loop md env (i + 1) n s'
      | .error m => .error m

/-- The items list as `save_items_to_db` leaves it: item `i` stamped and
`_id`-assigned per its insert attempt; non-dict items (whose per-item `try`
fails before any mutation) untouched. -/
def attemptedList (md : Dict) (gid : Nat → String) (items : List PyVal) :
    List PyVal :=
  (items.enumFrom 0).map (fun p => stampInsertAny md (gid p.1) p.2)

/-- Whether a value is a Python dict. -/
def isDict : PyVal → Bool
  | .obj _ => true
  | _ => false

/-- Field access on a stored document. -/
def doc_field (d : PyVal) (k : String) : Option PyVal :=
  match d with
  | .obj kvs => lookupKey kvs k
  | _ => none

/-- The insert attempts that succeed: dict items whose index the `insertOk`
oracle accepts (a non-dict item never reaches its insert). -/
def succEntries (insertOk : Nat → Bool) (items : List PyVal) (i : Nat) :
    List (Nat × PyVal) :=
  (items.enumFrom i).filter (fun p => isDict p.2 && insertOk p.1)

/-- The observables of a cycle other than the document collection: the
checkpoint file, the run log, the snapshot writes and the error log. -/
def obs (s : Sys) :
    Option FileContent × List String × List (String × PyVal) × List String :=
  (s.stateFile, s.runLog, s.snapshots, s.errorLog)

/-- `obs` applied across a `try`-block outcome. -/
def obsE (e : Except (Sys × String) Sys) :
    Except ((Option FileContent × List String × List (String × PyVal)
      × List String) × String)
      (Option FileContent × List String × List (String × PyVal)
        × List String) :=
  (e.map obs).mapError (fun p => (obs p.1, p.2))

/-! ### Concrete scenario values -/

/-- A fixed clock for concrete runs. -/
def clk0 : Clock := ⟨"T0", "R0", "09-30am", "T1", "T2", "T3"⟩

/-- The item of the spec's scenario: `{"timestamp": "2024-01-01T00:00:00Z",
"text": "hi"}`. -/
def itemHi : PyVal :=
  .obj [("timestamp", .str "2024-01-01T00:00:00Z"), ("text", .str "hi")]

/-- A fixed stream of driver-generated `ObjectId` hex strings. -/
def genId0 : Nat → String := fun i => "oid" ++ toString i

/-- `itemHi` as its insert attempt leaves it: stamped, with the driver's
generated `_id` assigned. -/
def itemHiInserted : PyVal :=
  .obj [("timestamp", .str "2024-01-01T00:00:00Z"), ("text", .str "hi"),
        ("source_type", .str "facebook"), ("post_type", .str "post"),
        ("source_name", .str "Facebook Page"), ("category", .str "Social Media"),
        ("_id", .oid "oid0")]

/-- A 200 response whose body is the bare one-item list `[itemHi]`. -/
def fetchOneItem : FetchResult := .response 200 "" (.ok (.arr [itemHi]))

/-- Fetch succeeds with one item; every insert is accepted. -/
def oInsertAll : Oracles := ⟨fetchOneItem, fun _ => true, genId0, true⟩

/-- Fetch succeeds with one item; every insert raises (e.g. every document
violates the unique `url` index). -/
def oInsertNone : Oracles := ⟨fetchOneItem, fun _ => false, genId0, true⟩

/-- Fetch succeeds with the empty envelope `{"data": []}`. -/
def oEmptyEnvelope : Oracles :=
  ⟨.response 200 "" (.ok (.obj [("data", .arr [])])), fun _ => true, genId0,
   true⟩

/-- The `requests.post` call raises. -/
def oFetchRaises : Oracles := ⟨.raises "boom", fun _ => true, genId0, true⟩

/-- No state file, empty collection and logs. -/
def sysFresh : Sys := ⟨none, [], [], [], []⟩

/-- A state file holding `{"lastTimestamp": "old"}`. -/
def sysOld : Sys :=
  ⟨some (.jsonFile (.obj [("lastTimestamp", .str "old")])), [], [], [], []⟩

/-- A state file whose contents are not valid JSON. -/
def sysBadState : Sys := ⟨some (.invalidFile "not json"), [], [], [], []⟩

/-- The spec scenario's configuration. -/
def cfgAcme : PyVal :=
  .obj [("actorId", .str "X"),
        ("inputTemplate", .obj [("startUrls",
           .arr [.obj [("url", .str "https://facebook.com/Acme")]])]),
        ("frequency", .int 1)]

/-- The same configuration with an empty `source_metadata` override. -/
def cfgAcmeEmptyMeta : PyVal :=
  .obj [("actorId", .str "X"),
        ("source_metadata", .obj []),
        ("inputTemplate", .obj [("startUrls",
           .arr [.obj [("url", .str "https://facebook.com/Acme")]])]),
        ("frequency", .int 1)]

/-- The snapshot write of a one-item cycle under `clk0`: the item as its
insert attempt left it, generated `_id` included. -/
def snapOneItem : List (String × PyVal) :=
  [("data/apify_response_09-30am.json",
    .obj [("runAt", .str "T1Z"), ("data", .arr [itemHiInserted])])]

/-- The checkpoint file after the one-item cycle. -/
def newStateFile : Option FileContent :=
  some (.jsonFile (.obj [("lastTimestamp", .str "2024-01-01T00:00:00Z")]))

/-- Result of the one-item cycle on `sysFresh` when every insert succeeds. -/
def resInsertAll : Sys :=
  ⟨newStateFile, [itemHiInserted],
   [dumpsMongo (success_record clk0 1 (.str "2024-01-01T00:00:00Z"))],
   snapOneItem, []⟩

/-- Result of the one-item cycle on `sysOld` when every insert raises. -/
def resInsertNone : Sys :=
  ⟨newStateFile, [],
   [dumpsMongo (success_record clk0 1 (.str "2024-01-01T00:00:00Z"))],
   snapOneItem, []⟩

/-! ### Association-list and serialization lemmas -/

theorem lookupKey_setKey_self (kvs : Dict) (k : String) (v : PyVal) :
    lookupKey (setKey kvs k v) k = some v := by
  induction kvs with
  | nil => simp [setKey, lookupKey]
  | cons kv rest ih =>
      obtain ⟨k', v'⟩ := kv
      by_cases h : k' = k <;> simp [setKey, lookupKey, h, ih]

theorem lookupKey_setKey_ne (kvs : Dict) (k' k : String) (v : PyVal)
    (h : k' ≠ k) : lookupKey (setKey kvs k' v) k = lookupKey kvs k := by
  induction kvs with
  | nil => simp [setKey, lookupKey, h]
  | cons kv rest ih =>
      obtain ⟨k₀, v₀⟩ := kv
      by_cases h₀ : k₀ = k' <;> by_cases h₁ : k₀ = k <;>
        simp_all [setKey, lookupKey]

theorem lookupKey_map_stringify (item : Dict) (k : String) :
    lookupKey (item.map stringify_nested_id) k
      = (lookupKey item k).map stringify_nested_val := by
  induction item with
  | nil => simp [lookupKey]
  | cons kv rest ih =>
      obtain ⟨k₀, v₀⟩ := kv
      by_cases h : k₀ = k <;> simp [lookupKey, stringify_nested_id, h, ih]

theorem saveLoop_mutItems (md : Dict) (insertOk : Nat → Bool)
    (genId : Nat → String) :
    ∀ (items : List PyVal) (i : Nat),
      (saveLoop md insertOk genId items i).mutItems
        = (items.enumFrom i).map
            (fun p => stampInsertAny md (genId p.1) p.2) := by
  intro items
  induction items with
  | nil => intro i; simp [saveLoop, List.enumFrom]
  | cons item rest ih =>
      intro i
      cases item <;>
        simp only [saveLoop, List.enumFrom, List.map_cons] <;>
        (try split) <;>
        simp_all [stampInsertAny, ih (i + 1)]

theorem saveLoop_count (md : Dict) (insertOk : Nat → Bool)
    (genId : Nat → String) :
    ∀ (items : List PyVal) (i : Nat),
      (saveLoop md insertOk genId items i).count
        = (succEntries insertOk items i).length := by
  intro items
  induction items with
  | nil => intro i; simp [saveLoop, succEntries, List.enumFrom]
  | cons item rest ih =>
      intro i
      cases item <;>
        simp only [saveLoop, succEntries, List.enumFrom, List.filter] <;>
        (try split) <;>
        simp_all [succEntries, isDict, saveLoop, List.filter, ih (i + 1)]

theorem saveLoop_inserted (md : Dict) (insertOk : Nat → Bool)
    (genId : Nat → String) :
    ∀ (items : List PyVal) (i : Nat),
      (saveLoop md insertOk genId items i).inserted
        = (succEntries insertOk items i).map
            (fun p => stampInsertAny md (genId p.1) p.2) := by
  intro items
  induction items with
  | nil => intro i; simp [saveLoop, succEntries, List.enumFrom]
  | cons item rest ih =>
      intro i
      cases item <;>
        simp only [saveLoop, succEntries, List.enumFrom, List.filter] <;>
        (try split) <;>
        simp_all [succEntries, isDict, stampInsertAny, saveLoop, List.filter,
          ih (i + 1)]

mutual

theorem dumps_stripOid : ∀ v : PyVal, dumps (stripOid v) = some (dumpsMongo v)
  | .null => rfl
  | .bool b => rfl
  | .int n => rfl
  | .str s => rfl
  | .oid h => rfl
  | .arr xs => by
      simp [stripOid, dumps, dumpsMongo, dumpsArr_stripOid xs]
  | .obj kvs => by
      simp [stripOid, dumps, dumpsMongo, dumpsObj_stripOid kvs]

theorem dumpsArr_stripOid :
    ∀ xs : List PyVal, dumpsArr (stripOidArr xs) = some (dumpsMongoArr xs)
  | [] => rfl
  | [x] => by
      simp [stripOidArr, dumpsArr, dumpsMongoArr, dumps_stripOid x]
  | x :: x' :: rest => by
      have h2 := dumpsArr_stripOid (x' :: rest)
      simp only [stripOidArr] at h2
      simp [stripOidArr, dumpsArr, dumpsMongoArr, dumps_stripOid x, h2]

theorem dumpsObj_stripOid :
    ∀ kvs : List (String × PyVal),
      dumpsObj (stripOidObj kvs) = some (dumpsMongoObj kvs)
  | [] => rfl
  | [(k, v)] => by
      simp [stripOidObj, dumpsObj, dumpsMongoObj, dumps_stripOid v]
  | (k, v) :: kv :: rest => by
      have h2 := dumpsObj_stripOid (kv :: rest)
      simp only [stripOidObj] at h2
      simp [stripOidObj, dumpsObj, dumpsMongoObj, dumps_stripOid v, h2]

end

/-! ### Cycle-level lemmas -/

theorem save_items_to_db_mutItems (items : List PyVal) (md : Dict)
    (db : List PyVal) (iok : Nat → Bool) (gid : Nat → String) :
    (save_items_to_db items md db iok gid).mutItems
      = attemptedList md gid items := by
  simp [save_items_to_db, attemptedList, saveLoop_mutItems]

theorem save_items_to_db_count (items : List PyVal) (md : Dict)
    (db : List PyVal) (iok : Nat → Bool) (gid : Nat → String) :
    (save_items_to_db items md db iok gid).count
      = (succEntries iok items 0).length := by
  simp [save_items_to_db, saveLoop_count]

theorem save_items_to_db_inserted (items : List PyVal) (md : Dict)
    (db : List PyVal) (iok : Nat → Bool) (gid : Nat → String) :
    (save_items_to_db items md db iok gid).inserted
      = db ++ (succEntries iok items 0).map
          (fun p => stampInsertAny md (gid p.1) p.2) := by
  simp [save_items_to_db, saveLoop_inserted]

theorem attemptedList_length (md : Dict) (gid : Nat → String)
    (l : List PyVal) :
    (attemptedList md gid l).length = l.length := by
  simp [attemptedList, List.enumFrom_length]

theorem finish_cycle_error (clk : Clock) (s : Sys) (items latest : PyVal)
    (s₁ : Sys) (msg : String)
    (h : finish_cycle clk s items latest = .error (s₁, msg)) :
    s₁ = { s with snapshots := s.snapshots
            ++ [(snapshot_name clk, snapshot_content clk items)] }
      ∧ pyLen items = .error msg := by
  unfold finish_cycle at h
  split at h
  · rename_i m hm
    simp only [Except.error.injEq, Prod.mk.injEq] at h
    exact ⟨h.1.symm, by rw [hm, h.2]⟩
  · simp at h

theorem finish_cycle_ok (clk : Clock) (s : Sys) (items latest : PyVal)
    (s' : Sys) (h : finish_cycle clk s items latest = .ok s') :
    ∃ n, pyLen items = .ok n ∧
      s' = { s with
        snapshots := s.snapshots
          ++ [(snapshot_name clk, snapshot_content clk items)],
        runLog := log_run s.runLog (success_record clk n latest) } := by
  unfold finish_cycle at h
  split at h
  · simp at h
  · rename_i n hn
    simp only [Except.ok.injEq] at h
    exact ⟨n, hn, h.symm⟩

/-- An exception inside the `if items:` part leaves the checkpoint file and
the run log untouched. -/
theorem cycle_items_error_frame (md : Dict) (iok : Nat → Bool)
    (gid : Nat → String) (sv : Bool)
    (clk : Clock) (s : Sys) (items : PyVal) (s₁ : Sys) (msg : String)
    (h : cycle_items md iok gid sv clk s items = .error (s₁, msg)) :
    s₁.stateFile = s.stateFile ∧ s₁.runLog = s.runLog := by
  simp only [cycle_items] at h
  repeat' split at h
  all_goals
    first
      | (simp only [Except.error.injEq, Prod.mk.injEq] at h;
          obtain ⟨h1, -⟩ := h; subst h1; exact ⟨rfl, rfl⟩)
      | (obtain ⟨h1, hlen⟩ := finish_cycle_error _ _ _ _ _ _ h;
          first
            | (subst h1; exact ⟨rfl, rfl⟩)
            | simp [pyLen] at hlen)

/-- Complete case analysis of a `try` block that ran to completion, given
the normalized items value. -/
theorem cycle_items_ok_cases (md : Dict) (iok : Nat → Bool)
    (gid : Nat → String) (sv : Bool)
    (clk : Clock) (s : Sys) (items : PyVal) (s' : Sys)
    (h : cycle_items md iok gid sv clk s items = .ok s') :
    (truthy items = false ∧ ∃ n, pyLen items = .ok n ∧
      s' = { s with
        snapshots := s.snapshots
          ++ [(snapshot_name clk, snapshot_content clk items)],
        runLog := log_run s.runLog (success_record clk n .null) })
    ∨ (∃ l kvs, items = .arr l ∧ truthy items = true ∧
        (attemptedList md gid l).head? = some (.obj kvs) ∧
        ((truthy (dGet kvs "timestamp" .null) = true ∧ sv = true ∧
          s' = { s with
            stateFile := save_state (dGet kvs "timestamp" .null),
            db := (save_items_to_db l md s.db iok gid).inserted,
            snapshots := s.snapshots ++ [(snapshot_name clk,
              snapshot_content clk (.arr (attemptedList md gid l)))],
            runLog := log_run s.runLog
              (success_record clk l.length (dGet kvs "timestamp" .null)) })
        ∨ (truthy (dGet kvs "timestamp" .null) = false ∧
          s' = { s with
            db := (save_items_to_db l md s.db iok gid).inserted,
            snapshots := s.snapshots ++ [(snapshot_name clk,
              snapshot_content clk (.arr (attemptedList md gid l)))],
            runLog := log_run s.runLog
              (success_record clk l.length (dGet kvs "timestamp" .null)) }))) := by
  simp only [cycle_items] at h
  repeat' split at h
  · rename_i x1 l htr x2 kvs heq hlat hsv
    obtain ⟨n, hn, hs⟩ := finish_cycle_ok _ _ _ _ _ h
    right
    refine ⟨l, kvs, rfl, htr, ?_, Or.inl ⟨hlat, hsv, ?_⟩⟩
    · rw [← save_items_to_db_mutItems l md s.db iok gid]; exact heq
    · rw [hs]
      simp [pyLen, save_items_to_db_mutItems, attemptedList_length] at hn
      simp [save_items_to_db_mutItems, ← hn]
  · simp at h
  · rename_i x1 l htr x2 kvs heq hlat
    obtain ⟨n, hn, hs⟩ := finish_cycle_ok _ _ _ _ _ h
    right
    refine ⟨l, kvs, rfl, htr, ?_, Or.inr ⟨by simpa using hlat, ?_⟩⟩
    · rw [← save_items_to_db_mutItems l md s.db iok gid]; exact heq
    · rw [hs]
      simp [pyLen, save_items_to_db_mutItems, attemptedList_length] at hn
      simp [save_items_to_db_mutItems, ← hn]
  · simp at h
  · simp at h
  · simp at h
  · rename_i htr
    obtain ⟨n, hn, hs⟩ := finish_cycle_ok _ _ _ _ _ h
    left
    exact ⟨by simpa using htr, n, hn, hs⟩

theorem cycle_try_raises (md : Dict) (o : Oracles) (clk : Clock) (s : Sys)
    (msg : String) (hf : o.fetch = .raises msg) :
    cycle_try md o clk s = .error (s, msg) := by
  simp [cycle_try, run_actor_and_get_items, hf]

theorem cycle_try_http_error (md : Dict) (o : Oracles) (clk : Clock)
    (s : Sys) (status : Nat) (body : String) (parsed : Except String PyVal)
    (hf : o.fetch = .response status body parsed) (hge : 400 ≤ status) :
    cycle_try md o clk s
      = .error ({ s with errorLog := s.errorLog
            ++ [api_error_line clk.errLogTime body] },
          raise_for_status_msg status) := by
  have h200 : status ≠ 200 := by omega
  simp [cycle_try, run_actor_and_get_items, hf, hge, h200]

theorem cycle_try_parse_error (md : Dict) (o : Oracles) (clk : Clock)
    (s : Sys) (status : Nat) (body m : String)
    (hf : o.fetch = .response status body (.error m)) (hlt : ¬ 400 ≤ status) :
    cycle_try md o clk s
      = .error ({ s with errorLog := s.errorLog
            ++ (if status ≠ 200 then [api_error_line clk.errLogTime body]
                else []) }, m) := by
  simp only [cycle_try, run_actor_and_get_items, hf, hlt, if_false]

theorem cycle_try_parsed (md : Dict) (o : Oracles) (clk : Clock) (s : Sys)
    (status : Nat) (body : String) (j : PyVal)
    (hf : o.fetch = .response status body (.ok j)) (hlt : ¬ 400 ≤ status) :
    cycle_try md o clk s
      = cycle_items md o.insertOk o.genId o.saveStateOk clk
          { s with errorLog := s.errorLog
              ++ (if status ≠ 200 then [api_error_line clk.errLogTime body]
                  else []) }
          (extract_items j) := by
  simp only [cycle_try, run_actor_and_get_items, hf, hlt, if_false]

theorem cycle_try_200 (md : Dict) (o : Oracles) (clk : Clock) (s : Sys)
    (body : String) (j : PyVal)
    (hf : o.fetch = .response 200 body (.ok j)) :
    cycle_try md o clk s
      = cycle_items md o.insertOk o.genId o.saveStateOk clk s
          (extract_items j) := by
  have h := cycle_try_parsed md o clk s 200 body j hf (by omega)
  simpa using h

/-- An exception anywhere in the `try` block leaves the checkpoint file and
the run log untouched (only the collection and the error log may have
changed by the raise point). -/
theorem cycle_try_error_frame (md : Dict) (o : Oracles) (clk : Clock)
    (s s₁ : Sys) (msg : String)
    (h : cycle_try md o clk s = .error (s₁, msg)) :
    s₁.stateFile = s.stateFile ∧ s₁.runLog = s.runLog := by
  simp only [cycle_try] at h
  split at h
  · simp only [Except.error.injEq, Prod.mk.injEq] at h
    obtain ⟨h1, -⟩ := h
    subst h1
    exact ⟨rfl, rfl⟩
  · have h2 := cycle_items_error_frame md o.insertOk o.genId o.saveStateOk
      clk _ _ s₁ msg h
    exact h2

/-- When the pre-`try` part succeeds (state file loads as a dict), one loop
iteration is the `try` block followed, on an exception, by the ERROR record
append. -/
theorem run_cycle_eq (md : Dict) (o : Oracles) (clk : Clock) (s : Sys)
    (st : Dict) (hload : load_state s.stateFile = .ok (.obj st)) :
    run_cycle md o clk s =
      match cycle_try md o clk s with
      | .ok s' => .ok s'
      | .error (s₁, msg) =>
          .ok { s₁ with runLog := log_run s₁.runLog (error_record clk msg) } := by
  unfold run_cycle
  rw [hload]

end Apify

namespace Apify

example : dGet [("a", .int 1), ("b", .null)] "b" (.str "d") = .null := by decide
example : dGet [("a", .int 1)] "b" (.str "d") = .str "d" := by decide
example : setKey [("a", .int 1), ("b", .int 2)] "a" (.int 9)
    = [("a", .int 9), ("b", .int 2)] := by decide
example : truthy (.arr []) = false := by decide
example : truthy (.obj [("x", .null)]) = true := by decide

end Apify

namespace Apify

/-- Observables other than the collection do not depend on which inserts
the database accepts: the items list the rest of the cycle works with is
the stamped list regardless of insert outcomes. -/
theorem cycle_items_obs_indep (md : Dict) (iok iok' : Nat → Bool)
    (gid : Nat → String) (sv : Bool)
    (clk : Clock) (s : Sys) (items : PyVal) :
    obsE (cycle_items md iok gid sv clk s items)
      = obsE (cycle_items md iok' gid sv clk s items) := by
  simp only [cycle_items, save_items_to_db_mutItems]
  split
  · split
    · split
      · split
        · split
          · rfl
          · rfl
        · rfl
      · rfl
      · rfl
    · rfl
  · rfl

/-- Insert outcomes influence neither the checkpoint file, nor the run log,
nor the snapshots, nor the error log of a whole loop iteration. -/
theorem run_cycle_obs_indep (md : Dict) (f : FetchResult)
    (iok iok' : Nat → Bool) (gid : Nat → String) (sv : Bool)
    (clk : Clock) (s : Sys) :
    (run_cycle md ⟨f, iok, gid, sv⟩ clk s).map obs
      = (run_cycle md ⟨f, iok', gid, sv⟩ clk s).map obs := by
  unfold run_cycle
  split
  · rfl
  · split
    · unfold cycle_try
      rcases hfr : (run_actor_and_get_items clk.errLogTime f).2 with m | items
      · simp [hfr]
      · simp only [hfr]
        generalize ({ s with errorLog := s.errorLog
            ++ (run_actor_and_get_items clk.errLogTime f).1 } : Sys) = sE
        have hind := cycle_items_obs_indep md iok iok' gid sv clk sE items
        rcases h1 : cycle_items md iok gid sv clk sE items
          with ⟨s₁, m₁⟩ | s₁
        · rcases h2 : cycle_items md iok' gid sv clk sE items
            with ⟨s₂, m₂⟩ | s₂
          · rw [h1, h2] at hind
            simp only [obsE, Except.map, Except.mapError,
              Except.error.injEq, Prod.mk.injEq] at hind
            obtain ⟨hobs, hm⟩ := hind
            simp only [obs, Prod.mk.injEq] at hobs
            obtain ⟨ha, hb, hc, hd⟩ := hobs
            simp [obs, log_run, Except.map, ha, hb, hc, hd, hm]
          · rw [h1, h2] at hind
            simp [obsE, Except.map, Except.mapError] at hind
        · rcases h2 : cycle_items md iok' gid sv clk sE items
            with ⟨s₂, m₂⟩ | s₂
          · rw [h1, h2] at hind
            simp [obsE, Except.map, Except.mapError] at hind
          · rw [h1, h2] at hind
            simp only [obsE, Except.map, Except.mapError,
              Except.ok.injEq] at hind
            simp only [obs, Prod.mk.injEq] at hind
            obtain ⟨ha, hb, hc, hd⟩ := hind
            simp [obs, Except.map, ha, hb, hc, hd]
    · rfl

end Apify

namespace Apify

/-! ## Claims -/

/-- C1 (counterexample).  The claim says the checkpoint only advances when
at least one item with a usable timestamp was retrieved *and persisted*.
Concretely refuted: a cycle that retrieves one timestamped item but whose
every insert raises (e.g. each document violates the unique `url` index)
persists nothing — the collection is unchanged — yet still advances the
checkpoint, because `save_state` runs regardless of `success_count`. -/
theorem C1_counterexample :
    run_cycle default_metadata oInsertNone clk0 sysOld = .ok resInsertNone
    ∧ resInsertNone.db = sysOld.db
    ∧ resInsertNone.stateFile ≠ sysOld.stateFile
    ∧ resInsertNone.stateFile
      = some (.jsonFile (.obj [("lastTimestamp",
          .str "2024-01-01T00:00:00Z")])) := by
  refine ⟨by decide, by decide, by decide, by decide⟩

/-- C1 (amended).  In every completed cycle the checkpoint only advances
when the fetch succeeded and returned a non-empty items list whose first
item (as the persistence pass leaves it in place: stamped, with the
driver's `_id` assigned on the insert attempt) carries a truthy
`timestamp`, and the state-file write succeeded; the value written is that
first item's timestamp, and the inserts were attempted (the collection is
exactly the old one plus the accepted documents) though every insert may
have failed.  A cycle that raises never advances the checkpoint, and a
cycle whose fetch returns a falsy items value leaves it unchanged. -/
theorem C1_checkpoint (md : Dict) (o : Oracles) (clk : Clock)
    (s s' : Sys) (st : Dict)
    (hload : load_state s.stateFile = .ok (.obj st))
    (hrun : run_cycle md o clk s = .ok s') :
    (s'.stateFile ≠ s.stateFile →
      ∃ status body j l kvs,
        o.fetch = .response status body (.ok j) ∧ ¬ 400 ≤ status ∧
        extract_items j = .arr l ∧ l ≠ [] ∧
        (attemptedList md o.genId l).head? = some (.obj kvs) ∧
        truthy (dGet kvs "timestamp" .null) = true ∧
        o.saveStateOk = true ∧
        s'.stateFile = save_state (dGet kvs "timestamp" .null) ∧
        s'.db = (save_items_to_db l md s.db o.insertOk o.genId).inserted)
    ∧ (∀ s₁ msg, cycle_try md o clk s = .error (s₁, msg) →
        s'.stateFile = s.stateFile)
    ∧ (∀ status body j, o.fetch = .response status body (.ok j) →
        ¬ 400 ≤ status → truthy (extract_items j) = false →
        s'.stateFile = s.stateFile) := by
  rw [run_cycle_eq md o clk s st hload] at hrun
  rcases hct : cycle_try md o clk s with ⟨s₁, msg⟩ | s''
  · rw [hct] at hrun
    simp only [Except.ok.injEq] at hrun
    obtain ⟨hsf, -⟩ := cycle_try_error_frame md o clk s s₁ msg hct
    have hs' : s'.stateFile = s.stateFile := by rw [← hrun]; exact hsf
    exact ⟨fun hne => absurd hs' hne, fun _ _ _ => hs', fun _ _ _ _ _ _ => hs'⟩
  · rw [hct] at hrun
    simp only [Except.ok.injEq] at hrun
    subst hrun
    cases hf : o.fetch with
    | raises msg =>
        rw [cycle_try_raises md o clk s msg hf] at hct
        exact absurd hct (by simp)
    | response status body parsed =>
        by_cases hge : 400 ≤ status
        · rw [cycle_try_http_error md o clk s status body parsed hf hge] at hct
          exact absurd hct (by simp)
        · cases parsed with
          | error m =>
              rw [cycle_try_parse_error md o clk s status body m hf hge] at hct
              exact absurd hct (by simp)
          | ok j =>
              have hctry := cycle_try_parsed md o clk s status body j hf hge
              rw [hctry] at hct
              rcases cycle_items_ok_cases _ _ _ _ _ _ _ _ hct with
                ⟨hfal, n, hn, hs⟩ | ⟨l, kvs, hitems, htr, hhead, hcase⟩
              · have hs' : s''.stateFile = s.stateFile := by rw [hs]
                exact ⟨fun hne => absurd hs' hne, fun _ _ _ => hs',
                  fun _ _ _ _ _ _ => hs'⟩
              · rw [hitems] at htr
                rcases hcase with ⟨hlat, hsv, hs⟩ | ⟨hlat, hs⟩
                · have hsf : s''.stateFile
                      = save_state (dGet kvs "timestamp" .null) := by rw [hs]
                  have hdb : s''.db
                      = (save_items_to_db l md s.db o.insertOk
                          o.genId).inserted := by
                    rw [hs]
                  have hnil : l ≠ [] := by
                    intro hl
                    subst hl
                    simp [truthy] at htr
                  refine ⟨fun _ => ⟨status, body, j, l, kvs, rfl, hge, hitems,
                      hnil, hhead, hlat, hsv, hsf, hdb⟩, ?_, ?_⟩
                  · intro s₁ msg hco
                    exact absurd hco (by simp)
                  · intro st' b' j' hf' hge' hfal
                    obtain ⟨-, -, hj⟩ := FetchResult.response.inj hf'
                    obtain hj' := Except.ok.inj hj
                    rw [← hj', hitems] at hfal
                    rw [hfal] at htr
                    cases htr
                · have hs' : s''.stateFile = s.stateFile := by rw [hs]
                  exact ⟨fun hne => absurd hs' hne, fun _ _ _ => hs',
                    fun _ _ _ _ _ _ => hs'⟩

/-- Concrete instantiation of `C1_checkpoint`: the all-inserts-fail cycle
on `sysOld`. -/
theorem C1_checkpoint_witness :
    (resInsertNone.stateFile ≠ sysOld.stateFile →
      ∃ status body j l kvs,
        oInsertNone.fetch = .response status body (.ok j) ∧ ¬ 400 ≤ status ∧
        extract_items j = .arr l ∧ l ≠ [] ∧
        (attemptedList default_metadata oInsertNone.genId l).head?
          = some (.obj kvs) ∧
        truthy (dGet kvs "timestamp" .null) = true ∧
        oInsertNone.saveStateOk = true ∧
        resInsertNone.stateFile = save_state (dGet kvs "timestamp" .null) ∧
        resInsertNone.db = (save_items_to_db l default_metadata sysOld.db
          oInsertNone.insertOk oInsertNone.genId).inserted)
    ∧ (∀ s₁ msg, cycle_try default_metadata oInsertNone clk0 sysOld
          = .error (s₁, msg) →
        resInsertNone.stateFile = sysOld.stateFile)
    ∧ (∀ status body j,
        oInsertNone.fetch = .response status body (.ok j) →
        ¬ 400 ≤ status → truthy (extract_items j) = false →
        resInsertNone.stateFile = sysOld.stateFile) :=
  C1_checkpoint default_metadata oInsertNone clk0 sysOld resInsertNone
    [("lastTimestamp", .str "old")] (by decide) (by decide)

end Apify

namespace Apify

/-- C2 (counterexample).  The claim covers step 1 (load checkpoint) among
the steps whose exceptions short-circuit to an ERROR Run Record.  But
`load_state` is called before the `try`, so a state file with invalid JSON
makes the iteration raise out of the loop: the process terminates
(`Except.error`), no ERROR record is appended, and no next cycle runs. -/
theorem C2_counterexample :
    run_cycle default_metadata oInsertAll clk0 sysBadState
      = .error "JSONDecodeError: not json" := by decide

/-- C2 (amended).  For every cycle in which the body of the `try`
(fetch, persist, checkpoint write) raises, the cycle short-circuits to
logging: the serialized ERROR Run Record — status `ERROR`, `itemCount` 0,
the exception's text in `error` — is appended to the run log, the
checkpoint file is unchanged, and the loop does not terminate: the
iteration returns normally and the next cycle begins.  (An exception from
the pre-`try` checkpoint load instead escapes the loop, per the
counterexample.) -/
theorem C2_error_cycle (md : Dict) (o : Oracles) (clk : Clock) (s s₁ : Sys)
    (st : Dict) (msg : String)
    (hload : load_state s.stateFile = .ok (.obj st))
    (htry : cycle_try md o clk s = .error (s₁, msg)) :
    run_cycle md o clk s
      = .ok { s₁ with
          runLog := s.runLog ++ [dumpsMongo (error_record clk msg)] }
    ∧ s₁.stateFile = s.stateFile
    ∧ (∀ env n i, env i = (o, clk) →
        run_loop md env i (n + 1) s
          = run_loop md env (i + 1) n
              { s₁ with
                runLog := s.runLog ++ [dumpsMongo (error_record clk msg)] }) := by
  obtain ⟨hsf, hrl⟩ := cycle_try_error_frame md o clk s s₁ msg htry
  have hrc : run_cycle md o clk s = .ok { s₁ with
      runLog := s.runLog ++ [dumpsMongo (error_record clk msg)] } := by
    rw [run_cycle_eq md o clk s st hload, htry]
    simp [log_run, hrl]
  refine ⟨hrc, hsf, ?_⟩
  intro env n i henv
  simp only [run_loop, henv, hrc]

/-- Concrete instantiation of `C2_error_cycle`: the fetch raises on
`sysOld`. -/
theorem C2_error_cycle_witness :
    run_cycle default_metadata oFetchRaises clk0 sysOld
      = .ok { sysOld with
          runLog := sysOld.runLog ++ [dumpsMongo (error_record clk0 "boom")] }
    ∧ sysOld.stateFile = sysOld.stateFile
    ∧ (∀ env n i, env i = (oFetchRaises, clk0) →
        run_loop default_metadata env i (n + 1) sysOld
          = run_loop default_metadata env (i + 1) n
              { sysOld with
                runLog := sysOld.runLog
                  ++ [dumpsMongo (error_record clk0 "boom")] }) :=
  C2_error_cycle default_metadata oFetchRaises clk0 sysOld sysOld
    [("lastTimestamp", .str "old")] "boom" (by decide) (by decide)

end Apify

namespace Apify

/-- C3 (counterexample).  The claim's documented default for `source_name`
is "the item's pageNameSource or Facebook Page".  But when the config has
no `source_metadata` at all, `extract_source_metadata` returns the full
default dict, whose `source_name` key ("Facebook Page") is present — so the
per-item `pageNameSource` fallback in `save_items_to_db` is never consulted:
an item with `pageNameSource` "Foo" is stamped "Facebook Page", not "Foo". -/
theorem C3_counterexample :
    extract_source_metadata (.obj [("inputTemplate", .obj [])])
      = .ok (default_metadata, [])
    ∧ lookupKey (stampItem default_metadata [("pageNameSource", .str "Foo")])
        "source_name" = some (.str "Facebook Page")
    ∧ lookupKey [("pageNameSource", .str "Foo")] "pageNameSource"
      = some (.str "Foo")
    ∧ PyVal.str "Facebook Page" ≠ .str "Foo" := by
  refine ⟨by decide, by decide, by decide, by decide⟩

/-- C3 (amended).  Every persisted document carries the four metadata
fields.  Each equals the extracted metadata dict's value when that key is
present, else the per-item fallback: `source_type` "facebook", `post_type`
"post", `source_name` = the item's `pageNameSource` (as left by the nested
`_id` pre-pass) or "Facebook Page", `category` "Social Media".  And when
the config supplies no `source_metadata`, the extracted dict is the full
fixed default dict (`source_type` "facebook", `post_type` "post",
`source_name` "Facebook Page", `category` "Social Media"), so all four keys
are present and the per-item fallbacks — including `pageNameSource` — are
never consulted. -/
theorem C3_metadata_fields :
    (∀ md item,
      lookupKey (stampItem md item) "source_type"
        = some (dGet md "source_type" (.str "facebook"))
      ∧ lookupKey (stampItem md item) "post_type"
        = some (dGet md "post_type" (.str "post"))
      ∧ lookupKey (stampItem md item) "source_name"
        = some (dGet md "source_name"
            (dGet (item.map stringify_nested_id) "pageNameSource"
              (.str "Facebook Page")))
      ∧ lookupKey (stampItem md item) "category"
        = some (dGet md "category" (.str "Social Media")))
    ∧ (∀ ckvs r, lookupKey ckvs "source_metadata" = none →
        extract_source_metadata (.obj ckvs) = .ok r →
        r.1 = default_metadata) := by
  constructor
  · intro md item
    simp only [stampItem]
    refine ⟨?_, ?_, ?_, ?_⟩
    · rw [lookupKey_setKey_ne _ _ _ _
          (show "category" ≠ "source_type" by decide),
        lookupKey_setKey_ne _ _ _ _
          (show "source_name" ≠ "source_type" by decide),
        lookupKey_setKey_ne _ _ _ _
          (show "post_type" ≠ "source_type" by decide),
        lookupKey_setKey_self]
    · rw [lookupKey_setKey_ne _ _ _ _
          (show "category" ≠ "post_type" by decide),
        lookupKey_setKey_ne _ _ _ _
          (show "source_name" ≠ "post_type" by decide),
        lookupKey_setKey_self]
    · rw [lookupKey_setKey_ne _ _ _ _
          (show "category" ≠ "source_name" by decide),
        lookupKey_setKey_self]
      simp only [dGet]
      rw [lookupKey_setKey_ne _ _ _ _
          (show "post_type" ≠ "pageNameSource" by decide),
        lookupKey_setKey_ne _ _ _ _
          (show "source_type" ≠ "pageNameSource" by decide)]
    · rw [lookupKey_setKey_self]
  · intro ckvs r hnone hr
    simp only [extract_source_metadata, hnone] at hr
    split at hr
    · exact absurd hr (by simp)
    · split at hr
      · exact absurd hr (by simp)
      · rw [if_neg] at hr
        · simp only [Except.ok.injEq] at hr
          rw [← hr]
        · simp [default_metadata, dGet, lookupKey, truthy]
    · exact absurd hr (by simp)

/-- Concrete instantiation of `C3_metadata_fields`: the `category` stamp on
a bare item under empty metadata, and the extraction on a config with no
`source_metadata`. -/
theorem C3_metadata_fields_witness :
    lookupKey (stampItem [] [("a", .int 1)]) "category"
      = some (dGet [] "category" (.str "Social Media"))
    ∧ (default_metadata, ([] : List PyVal)).1 = default_metadata :=
  ⟨(C3_metadata_fields.1 [] [("a", .int 1)]).2.2.2,
   C3_metadata_fields.2 [("inputTemplate", .obj [])]
     (default_metadata, []) (by decide) (by decide)⟩

end Apify

namespace Apify

/-- C4 (counterexample).  In the spec's scenario the claim expects the one
inserted document's `source_name` to be "Acme", derived from the start URL.
With no `source_metadata` in the config the extracted metadata is the full
default dict (`source_name` "Facebook Page", truthy), so the URL derivation
is skipped and the document is stamped "Facebook Page". -/
theorem C4_counterexample :
    extract_source_metadata cfgAcme
      = .ok (default_metadata, [.str "https://facebook.com/Acme"])
    ∧ run_cycle default_metadata oInsertAll clk0 sysFresh = .ok resInsertAll
    ∧ resInsertAll.db.map (fun d => doc_field d "source_name")
      = [some (.str "Facebook Page")]
    ∧ PyVal.str "Facebook Page" ≠ .str "Acme" := by
  refine ⟨by decide, by decide, by decide, by decide⟩

/-- C4 (amended).  For the scenario configuration (no `source_metadata`
override), when fetch returns the one-item list, the checkpoint file
becomes `{"lastTimestamp": "2024-01-01T00:00:00Z"}` and exactly one
document is inserted — but its `source_name` is the default
"Facebook Page", not "Acme".  The URL derivation producing "Acme" runs only
when a supplied `source_metadata` lacks a truthy `source_name`, as with the
empty override. -/
theorem C4_scenario :
    extract_source_metadata cfgAcme
      = .ok (default_metadata, [.str "https://facebook.com/Acme"])
    ∧ run_cycle default_metadata oInsertAll clk0 sysFresh = .ok resInsertAll
    ∧ resInsertAll.stateFile
      = some (.jsonFile (.obj [("lastTimestamp",
          .str "2024-01-01T00:00:00Z")]))
    ∧ resInsertAll.db = [itemHiInserted]
    ∧ doc_field itemHiInserted "source_name" = some (.str "Facebook Page")
    ∧ extract_source_metadata cfgAcmeEmptyMeta
      = .ok ([("source_name", .str "Acme")],
          [.str "https://facebook.com/Acme"]) := by
  refine ⟨by decide, by decide, by decide, by decide, by decide, by decide⟩

end Apify

namespace Apify

/-- C5 (confirmed).  `save_items_to_db` returns exactly the number of
insert attempts that succeeded (dict items at indices the database
accepts); a per-item insert failure does not abort the batch — the
collection gains exactly the accepted documents, in order, and every item
is still processed (stamped, with the driver's `_id` assigned on its
attempt) — and insert outcomes change nothing the run log, checkpoint,
snapshots or error log record, so the cycle's status cannot become ERROR
because of them. -/
theorem C5_persist_count :
    (∀ items md db iok gid, (save_items_to_db items md db iok gid).count
        = (succEntries iok items 0).length)
    ∧ (∀ items md db iok gid, (save_items_to_db items md db iok gid).inserted
        = db ++ (succEntries iok items 0).map
            (fun p => stampInsertAny md (gid p.1) p.2))
    ∧ (∀ items md db iok gid, (save_items_to_db items md db iok gid).mutItems
        = attemptedList md gid items)
    ∧ (∀ md f iok iok' gid sv clk s,
        (run_cycle md ⟨f, iok, gid, sv⟩ clk s).map obs
          = (run_cycle md ⟨f, iok', gid, sv⟩ clk s).map obs) :=
  ⟨fun items md db iok gid => save_items_to_db_count items md db iok gid,
   fun items md db iok gid => save_items_to_db_inserted items md db iok gid,
   fun items md db iok gid => save_items_to_db_mutItems items md db iok gid,
   fun md f iok iok' gid sv clk s =>
     run_cycle_obs_indep md f iok iok' gid sv clk s⟩

/-- C6 (confirmed).  A cycle whose fetch returns the envelope
`{"data": []}` yields zero items: the checkpoint file and the collection
are untouched (only snapshots and the run log are appended to), and the
appended Run Record is `SUCCEEDED` with `itemCount` 0. -/
theorem C6_empty_envelope (md : Dict) (o : Oracles) (clk : Clock) (s : Sys)
    (st : Dict) (body : String)
    (hload : load_state s.stateFile = .ok (.obj st))
    (hf : o.fetch = .response 200 body (.ok (.obj [("data", .arr [])]))) :
    run_cycle md o clk s = .ok { s with
      snapshots := s.snapshots
        ++ [(snapshot_name clk, snapshot_content clk (.arr []))],
      runLog := s.runLog ++ [dumpsMongo (success_record clk 0 .null)] } := by
  rw [run_cycle_eq md o clk s st hload, cycle_try_200 md o clk s body _ hf]
  simp [cycle_items, extract_items, dGet, lookupKey, truthy, finish_cycle,
    pyLen, log_run]

/-- Concrete instantiation of `C6_empty_envelope` on `sysOld`. -/
theorem C6_empty_envelope_witness :
    run_cycle default_metadata oEmptyEnvelope clk0 sysOld
      = .ok { sysOld with
          snapshots := sysOld.snapshots
            ++ [(snapshot_name clk0, snapshot_content clk0 (.arr []))],
          runLog := sysOld.runLog
            ++ [dumpsMongo (success_record clk0 0 .null)] } :=
  C6_empty_envelope default_metadata oEmptyEnvelope clk0 sysOld
    [("lastTimestamp", .str "old")] "" (by decide) rfl

end Apify

namespace Apify

/-- C7 (counterexample).  The claim says the snapshot holds the items
exactly as the source returned them, before any modification.  But the
snapshot is dumped after `save_items_to_db` has mutated the item dicts in
place — the four metadata stamps and the `_id` the driver assigns to every
attempted document inside `insert_one`: the one-item cycle's snapshot
contains the stamped, `_id`-carrying item, not the raw fetched item. -/
theorem C7_counterexample :
    run_cycle default_metadata oInsertAll clk0 sysFresh = .ok resInsertAll
    ∧ resInsertAll.snapshots
      = [("data/apify_response_09-30am.json",
          .obj [("runAt", .str "T1Z"), ("data", .arr [itemHiInserted])])]
    ∧ extract_items (.arr [itemHi]) = .arr [itemHi]
    ∧ doc_field itemHiInserted "_id" = some (.oid "oid0")
    ∧ itemHiInserted ≠ itemHi := by
  refine ⟨by decide, by decide, by decide, by decide, by decide⟩

/-- C7 (amended).  Every successful cycle writes exactly one snapshot JSON
file, named by the time-of-day token, whose contents are a run timestamp
plus the fetched items as the persistence pass leaves them: when the
normalized response is a list, each dict item carries the four stamped
metadata fields, stringified nested `_id`s, and the top-level `_id` the
driver assigned on its insert attempt — the pristine raw items only when
nothing was attempted; a falsy non-list normalized value is dumped as-is. -/
theorem C7_snapshot (md : Dict) (o : Oracles) (clk : Clock) (s s' : Sys)
    (status : Nat) (body : String) (j : PyVal)
    (hf : o.fetch = .response status body (.ok j)) (hlt : ¬ 400 ≤ status)
    (hok : cycle_try md o clk s = .ok s') :
    (∀ l, extract_items j = .arr l →
      s'.snapshots = s.snapshots ++ [(snapshot_name clk,
        snapshot_content clk (.arr (attemptedList md o.genId l)))])
    ∧ (truthy (extract_items j) = false →
      s'.snapshots = s.snapshots ++ [(snapshot_name clk,
        snapshot_content clk (extract_items j))]) := by
  rw [cycle_try_parsed md o clk s status body j hf hlt] at hok
  rcases cycle_items_ok_cases _ _ _ _ _ _ _ _ hok with
    ⟨hfal, n, hn, hs⟩ | ⟨l0, kvs, hitems, htr, hhead, hcase⟩
  · constructor
    · intro l hl
      rw [hl] at hfal
      have hnil : l = [] := by
        cases l with
        | nil => rfl
        | cons a as => simp [truthy] at hfal
      subst hnil
      rw [hs, hl]
      simp [attemptedList, List.enumFrom]
    · intro hfal2
      rw [hs]
  · have hsnap : s'.snapshots = s.snapshots ++ [(snapshot_name clk,
        snapshot_content clk (.arr (attemptedList md o.genId l0)))] := by
      rcases hcase with ⟨-, -, hs⟩ | ⟨-, hs⟩ <;> rw [hs]
    constructor
    · intro l hl
      rw [hitems] at hl
      obtain hl0 := PyVal.arr.inj hl
      subst hl0
      exact hsnap
    · intro hfal
      rw [hfal] at htr
      cases htr

/-- Concrete instantiation of `C7_snapshot`: the one-item cycle. -/
theorem C7_snapshot_witness :
    (∀ l, extract_items (.arr [itemHi]) = .arr l →
      resInsertAll.snapshots = sysFresh.snapshots ++ [(snapshot_name clk0,
        snapshot_content clk0
          (.arr (attemptedList default_metadata oInsertAll.genId l)))])
    ∧ (truthy (extract_items (.arr [itemHi])) = false →
      resInsertAll.snapshots = sysFresh.snapshots ++ [(snapshot_name clk0,
        snapshot_content clk0 (extract_items (.arr [itemHi])))]) :=
  C7_snapshot default_metadata oInsertAll clk0 sysFresh resInsertAll 200 ""
    (.arr [itemHi]) rfl (by decide) (by decide)

end Apify

namespace Apify

/-- C8 (counterexample).  The claim says every field other than the four
stamped ones keeps exactly the value the source returned, including nested
fields.  But the pre-pass of `save_items_to_db` replaces a nested `_id`
inside any dict-valued field by `str(...)`: a field `a = {"_id": 5}` is
persisted as `{"_id": "5"}`. -/
theorem C8_counterexample :
    lookupKey (stampItem default_metadata [("a", .obj [("_id", .int 5)])]) "a"
      = some (.obj [("_id", .str "5")])
    ∧ PyVal.obj [("_id", .str "5")] ≠ .obj [("_id", .int 5)] := by
  refine ⟨by decide, by decide⟩

/-- C8 (amended).  Beyond the four stamped metadata fields,
`save_items_to_db` passes every field of every item through with only the
nested-`_id` pre-pass applied: the persisted value of any other key is the
source's value transformed by `stringify_nested_val`, and any value that is
not a dict containing `_id` comes through exactly unchanged. -/
theorem C8_passthrough (md : Dict) (item : Dict) (k : String)
    (h1 : k ≠ "source_type") (h2 : k ≠ "post_type")
    (h3 : k ≠ "source_name") (h4 : k ≠ "category") :
    lookupKey (stampItem md item) k
      = (lookupKey item k).map stringify_nested_val
    ∧ (∀ v, lookupKey item k = some v →
        (∀ inner, v = .obj inner → lookupKey inner "_id" = none) →
        lookupKey (stampItem md item) k = some v) := by
  have hmain : lookupKey (stampItem md item) k
      = (lookupKey item k).map stringify_nested_val := by
    simp only [stampItem]
    rw [lookupKey_setKey_ne _ _ _ _ (Ne.symm h4),
      lookupKey_setKey_ne _ _ _ _ (Ne.symm h3),
      lookupKey_setKey_ne _ _ _ _ (Ne.symm h2),
      lookupKey_setKey_ne _ _ _ _ (Ne.symm h1),
      lookupKey_map_stringify]
  refine ⟨hmain, ?_⟩
  intro v hv hno
  rw [hmain, hv]
  cases v with
  | obj inner => simp [stringify_nested_val, hno inner rfl]
  | null => simp [stringify_nested_val]
  | bool b => simp [stringify_nested_val]
  | int n => simp [stringify_nested_val]
  | str t => simp [stringify_nested_val]
  | arr xs => simp [stringify_nested_val]
  | oid h => simp [stringify_nested_val]

/-- Concrete instantiation of `C8_passthrough`: the `text` field of the
scenario item. -/
theorem C8_passthrough_witness :
    lookupKey (stampItem default_metadata
        [("timestamp", .str "2024-01-01T00:00:00Z"), ("text", .str "hi")])
        "text"
      = (lookupKey [("timestamp", .str "2024-01-01T00:00:00Z"),
          ("text", .str "hi")] "text").map stringify_nested_val
    ∧ (∀ v, lookupKey [("timestamp", .str "2024-01-01T00:00:00Z"),
          ("text", .str "hi")] "text" = some v →
        (∀ inner, v = .obj inner → lookupKey inner "_id" = none) →
        lookupKey (stampItem default_metadata
          [("timestamp", .str "2024-01-01T00:00:00Z"), ("text", .str "hi")])
          "text" = some v) :=
  C8_passthrough default_metadata
    [("timestamp", .str "2024-01-01T00:00:00Z"), ("text", .str "hi")] "text"
    (by decide) (by decide) (by decide) (by decide)

end Apify

namespace Apify

/-- C9 (confirmed).  `log_run` always appends exactly one serialized line,
using the Mongo encoder, which is total: on any value it agrees with the
default `json.dumps` applied after replacing every `ObjectId` by its string
(the object-to-string fallback), so records containing opaque
database-generated identifiers — which the default encoder rejects — are
still serialized and appended. -/
theorem C9_log_run :
    (∀ log data, log_run log data = log ++ [dumpsMongo data])
    ∧ (∀ v, dumps (stripOid v) = some (dumpsMongo v))
    ∧ dumps (.obj [("dbId", .oid "64ffe0")]) = none
    ∧ log_run [] (.obj [("dbId", .oid "64ffe0")])
      = ["\x7b\"dbId\": \"64ffe0\"\x7d"] :=
  ⟨fun _ _ => rfl, fun v => dumps_stripOid v, by decide, by decide⟩

/-- C10 (counterexample).  The claim says `load_state` returns the
zero-value checkpoint only when the state file is absent; a present state
file containing exactly `{"lastTimestamp": ""}` also makes it return the
zero value. -/
theorem C10_counterexample :
    load_state (some (.jsonFile (.obj [("lastTimestamp", .str "")])))
      = .ok (.obj [("lastTimestamp", .str "")])
    ∧ (some (.jsonFile (.obj [("lastTimestamp", .str "")]))
        : Option FileContent) ≠ none := by
  refine ⟨by decide, by decide⟩

/-- C10 (amended).  `load_state` returns the zero-value checkpoint
`{"lastTimestamp": ""}` when the state file is absent (and otherwise the
file's parsed contents, which may coincide); a state file that is not valid
JSON makes `load_state` raise, and since it is invoked before the cycle's
`try`, that failure terminates the process — no ERROR Run Record is
produced. -/
theorem C10_load_state :
    load_state none = .ok (.obj [("lastTimestamp", .str "")])
    ∧ (∀ raw, load_state (some (.invalidFile raw))
        = .error ("JSONDecodeError: " ++ raw))
    ∧ (∀ md o clk s raw, s.stateFile = some (.invalidFile raw) →
        run_cycle md o clk s = .error ("JSONDecodeError: " ++ raw)) := by
  refine ⟨rfl, fun raw => rfl, ?_⟩
  intro md o clk s raw h
  unfold run_cycle
  rw [h]
  rfl

/-- Concrete instantiation of `C10_load_state`: the invalid state file. -/
theorem C10_load_state_witness :
    run_cycle default_metadata oInsertAll clk0 sysBadState
      = .error ("JSONDecodeError: " ++ "not json") :=
  C10_load_state.2.2 default_metadata oInsertAll clk0 sysBadState
    "not json" rfl

end Apify
